import Mathlib

/-!
# Verification of the gcp-mission-ingestion service

Shallow embedding of `src/gcp-mission-ingestion/utils/weather.py` and
`src/gcp-mission-ingestion/main.py`.

JSON values are modelled by the inductive `JsonVal`; Python `None` and JSON
`null` both map to `JsonVal.null` (and, after a `dict.get`, to `Option.none`).
Python floats are modelled by `ℚ`. The outbound HTTP call performed by
`get_weather` is modelled by the inductive `FetchOutcome`, which enumerates
the possible outcomes of `client.get` as seen by the function body: a timeout,
any other network-level fault, or a response carrying a status code and a
(possibly unparsable) JSON body. Python exceptions raised inside the `try`
block are modelled with `Except PyExn`.
-/

namespace MissionIngestion

/-- A JSON value as produced by `response.json()` in Python. -/
inductive JsonVal where
  | null
  | bool (b : Bool)
  | num (q : ℚ)
  | str (s : String)
  | arr (xs : List JsonVal)
  | obj (fields : List (String × JsonVal))

/-- Python exceptions that can be raised inside `get_weather`'s `try` block.
`httpError` covers `httpx.TimeoutException` and other transport faults raised
by `client.get`; `statusError` is the `httpx.HTTPStatusError` raised by
`response.raise_for_status()`; `jsonError` is the decode error raised by
`response.json()`; `attrError` is the `AttributeError` raised by calling
`.get` on a non-dict; `typeError` is raised by ordering comparisons on
non-numeric values. -/
inductive PyExn where
  | httpError
  | statusError
  | jsonError
  | attrError
  | typeError
deriving DecidableEq

/-- Python truthiness of a JSON-derived value (`if is_day:`). -/
def pyTruthy : JsonVal → Bool
  | .null => false
  | .bool b => b
  | .num q => if q = 0 then false else true
  | .str s => if s = "" then false else true
  | .arr [] => false
  | .arr (_ :: _) => true
  | .obj [] => false
  | .obj (_ :: _) => true

/-- Truthiness of an optional value; Python `None` is falsy. -/
def pyTruthyOpt : Option JsonVal → Bool
  | none => false
  | some v => pyTruthy v

/-- Models `d.get(key, default)` on a value `d`: returns the stored value
(or the default when the key is absent); raises `AttributeError` when `d`
is not a dict. -/
def objGet : JsonVal → String → JsonVal → Except PyExn JsonVal
  | .obj fs, k, dflt => .ok ((fs.lookup k).getD dflt)
  | _, _, _ => .error .attrError

/-- Models `d.get(key)` on a value `d`, where both an absent key and a
stored JSON `null` surface as Python `None` (here `Option.none`); raises
`AttributeError` when `d` is not a dict. -/
def objGetOpt : JsonVal → String → Except PyExn (Option JsonVal)
  | .obj fs, k =>
      .ok (match fs.lookup k with
           | some .null => none
           | some v => some v
           | none => none)
  | _, _ => .error .attrError

/-- Numeric coercion used by Python's ordering comparisons: numbers compare
as themselves, booleans as 0/1, everything else raises `TypeError` when
compared against an `int` literal. -/
def pyNumVal : JsonVal → Except PyExn ℚ
  | .num q => .ok q
  | .bool b => .ok (if b then 1 else 0)
  | _ => .error .typeError

/-- The normalized dictionary returned by `get_weather`:
`{"temperature": ..., "wind_speed": ..., "condition": ...}`. `none` models
Python `None`. -/
structure WeatherResult where
  temperature : Option JsonVal
  wind_speed : Option JsonVal
  condition : String

/-- The fallback result returned on every error path of `get_weather`. -/
def fallbackWeather : WeatherResult :=
  { temperature := none, wind_speed := none, condition := "unknown" }

/-- Outcome of the outbound `client.get` call as seen by `get_weather`:
a timeout, some other network-level fault (both raise `httpx.HTTPError`
subclasses), or a response with a status code and a body that either parses
to a JSON value or fails to parse. -/
inductive FetchOutcome where
  | timeout
  | networkFault
  | response (status : Nat) (body : Option JsonVal)

/-- Whether `response.raise_for_status()` passes: it raises unless the
status is a 2xx success. -/
def statusSuccess (status : Nat) : Bool :=
  200 ≤ status && status < 300

/-- The `if/elif/else` chain of `get_weather` deriving `condition` from the
extracted `temperature`, `wind_speed` and `is_day` values, including the
`TypeError` paths of the two ordering comparisons. -/
def classifyCondition (t w d : Option JsonVal) : Except PyExn String :=
  match t, w with
  | none, _ => .ok "unknown"
  | some _, none => .ok "unknown"
  | some tv, some wv =>
    match pyNumVal tv with
    | .error e => .error e
    | .ok tq =>
      if tq < 0 then .ok "freezing"
      else
        match pyNumVal wv with
        | .error e => .error e
        | .ok wq =>
          if wq > 40 then .ok "windy"
          else .ok (if pyTruthyOpt d then "clear-day" else "clear-night")

/-- The success branch of `get_weather`'s `try` block after `response.json()`:
`data.get("current", {})`, the three `current.get(...)` extractions, the
condition chain, and the assembly of the returned dictionary. -/
def parseBody (body : JsonVal) : Except PyExn WeatherResult :=
  match objGet body "current" (.obj []) with
  | .error e => .error e
  | .ok current =>
    match objGetOpt current "temperature_2m" with
    | .error e => .error e
    | .ok t =>
      match objGetOpt current "wind_speed_10m" with
      | .error e => .error e
      | .ok w =>
        match objGetOpt current "is_day" with
        | .error e => .error e
        | .ok d =>
          match classifyCondition t w d with
          | .error e => .error e
          | .ok c => .ok { temperature := t, wind_speed := w, condition := c }

/-- The body of `get_weather`'s `try` block, as a fallible computation:
the outbound call, `raise_for_status`, `response.json()` and the success
branch. An `error` value is an exception propagating to the `except`
clauses. -/
def get_weather_try : FetchOutcome → Except PyExn WeatherResult
  | .timeout => .error .httpError
  | .networkFault => .error .httpError
  | .response status body =>
    if statusSuccess status then
      match body with
      | some j => parseBody j
      | none => .error .jsonError
    else .error .statusError

/-- Exceptions caught by the first `except httpx.HTTPError` clause. -/
def isHttpxError : PyExn → Bool
  | .httpError => true
  | .statusError => true
  | _ => false

/-- Which of the two `except` clauses handled the failure (they differ only
in the log message, not in the returned data). -/
inductive LogEvent where
  | httpErrorLog
  | unexpectedErrorLog
deriving DecidableEq

/-- The whole of `get_weather` including its two `except` clauses: the result
returned to the caller, paired with the log line emitted on failure. -/
def get_weather_impl (o : FetchOutcome) : WeatherResult × Option LogEvent :=
  match get_weather_try o with
  | .ok w => (w, none)
  | .error e =>
    if isHttpxError e then (fallbackWeather, some .httpErrorLog)
    else (fallbackWeather, some .unexpectedErrorLog)

/-- The value `get_weather` returns for a given outcome of the outbound call. -/
def get_weather (o : FetchOutcome) : WeatherResult :=
  (get_weather_impl o).1

/-- A query-parameter value as passed to `client.get(API_URL, params=params)`. -/
inductive ParamVal where
  | num (q : ℚ)
  | str (s : String)
  | strList (xs : List String)
deriving DecidableEq

/-- The constant `API_URL` from `weather.py`. -/
def API_URL : String := "https://api.open-meteo.com/v1/forecast"

/-- The request issued by `get_weather`: the endpoint URL and the `params`
dictionary built at the top of the function. -/
structure HttpRequest where
  url : String
  params : List (String × ParamVal)

/-- The outbound GET request `get_weather` issues for given coordinates. -/
def get_weather_request (latitude longitude : ℚ) : HttpRequest :=
  { url := API_URL
    params :=
      [ ("latitude", .num latitude)
      , ("longitude", .num longitude)
      , ("current", .strList ["temperature_2m", "wind_speed_10m", "is_day"])
      , ("wind_speed_unit", .str "kmh")
      , ("timezone", .str "UTC") ] }

end MissionIngestion

namespace MissionIngestion

/-- The second branch of `get_weather`'s `try` block viewed from the caller:
the two `except` clauses (first `httpx.HTTPError`, then the catch-all
`Exception`) each swallow the exception and return the fallback dictionary,
so no error value ever leaves the function. -/
def get_weather_run (o : FetchOutcome) : Except PyExn WeatherResult :=
  match get_weather_try o with
  | .ok w => .ok w
  | .error e =>
    if isHttpxError e then .ok fallbackWeather
    else .ok fallbackWeather

/-- The closed vocabulary of `condition` strings appearing in `get_weather`. -/
def condVocab : List String :=
  ["unknown", "freezing", "windy", "clear-day", "clear-night"]

/-- Helper building a success body whose `current` section has the given
fields, as `{"current": {...fields...}}`. -/
def mkCurrent (fields : List (String × JsonVal)) : JsonVal :=
  .obj [("current", .obj fields)]

/-- A datetime value as produced by `datetime.utcnow()`. -/
structure DateTimeUTC where
  year : Nat
  month : Nat
  day : Nat
  hour : Nat
  minute : Nat
  second : Nat
  microsecond : Nat

/-- Left-pads the decimal form of `n` with zeros to the given width. -/
def padNum (width n : Nat) : String :=
  String.mk (List.replicate (width - (toString n).length) '0') ++ toString n

/-- Python's `datetime.isoformat()` for a naive UTC datetime:
`YYYY-MM-DDTHH:MM:SS` with a `.ffffff` microsecond part exactly when the
microsecond field is nonzero. -/
def DateTimeUTC.isoformat (t : DateTimeUTC) : String :=
  padNum 4 t.year ++ "-" ++ padNum 2 t.month ++ "-" ++ padNum 2 t.day ++ "T" ++
  padNum 2 t.hour ++ ":" ++ padNum 2 t.minute ++ ":" ++ padNum 2 t.second ++
  (if t.microsecond = 0 then "" else "." ++ padNum 6 t.microsecond)

/-- The `GET /health` handler from `main.py`: given the current UTC time of
the call, it returns HTTP 200 (FastAPI's default for a handler returning
normally) with the literal body built in `health_check`. -/
def health_check (now : DateTimeUTC) : Nat × JsonVal :=
  (200, .obj [("status", .str "ok"), ("timestamp", .str now.isoformat)])

/-- Modelled from the spec: the `MissionRequest` Pydantic model is imported
from `models.py`, which is not under `src/`; per the spec it has mandatory
numeric `latitude` (range −90..90) and `longitude` (range −180..180) plus
arbitrary further mission fields. -/
structure MissionRequest where
  latitude : ℚ
  longitude : ℚ
  extra : List (String × JsonVal)

/-- Extracts a numeric JSON value, as field validation for a float field. -/
def jsonNum : JsonVal → Option ℚ
  | .num q => some q
  | _ => none

/-- Modelled from the spec: the validation FastAPI performs against
`MissionRequest` (defined in the missing `models.py`) before the handler
runs — both coordinates must be present, numeric, and inside their ranges;
additional fields pass through unvalidated. -/
def validateMission (body : JsonVal) : Option MissionRequest :=
  match body with
  | .obj fs =>
    match fs.lookup "latitude", fs.lookup "longitude" with
    | some lv, some gv =>
      match jsonNum lv, jsonNum gv with
      | some lat, some lon =>
        if -90 ≤ lat ∧ lat ≤ 90 ∧ -180 ≤ lon ∧ lon ≤ 180 then
          some { latitude := lat, longitude := lon,
                 extra := fs.filter (fun p => p.1 != "latitude" && p.1 != "longitude") }
        else none
      | _, _ => none
    | _, _ => none
  | _ => none

/-- Python's `mission.dict()`: the validated model as a plain dictionary. -/
def MissionRequest.dict (m : MissionRequest) : JsonVal :=
  .obj (("latitude", .num m.latitude) :: ("longitude", .num m.longitude) :: m.extra)

/-- JSON serialization of an optional value; Python `None` becomes `null`. -/
def jsonOfOpt : Option JsonVal → JsonVal
  | none => .null
  | some v => v

/-- JSON serialization of the weather dictionary inside the response body. -/
def WeatherResult.toJson (r : WeatherResult) : JsonVal :=
  .obj [ ("temperature", jsonOfOpt r.temperature)
       , ("wind_speed", jsonOfOpt r.wind_speed)
       , ("condition", .str r.condition) ]

/-- The `POST /mission` handler body from `main.py`, given an
already-validated mission, the outcome of the outbound weather call, and
the current UTC time: builds the record
`{"mission": ..., "weather": ..., "ingestion_timestamp": ...}`. -/
def create_mission (mission : MissionRequest) (o : FetchOutcome) (now : DateTimeUTC) : JsonVal :=
  .obj [ ("mission", mission.dict)
       , ("weather", (get_weather o).toJson)
       , ("ingestion_timestamp", .str now.isoformat) ]

/-- An HTTP-level response of the `/mission` route. -/
inductive MissionResponse where
  | rejected (status : Nat)
  | accepted (status : Nat) (record : JsonVal)

/-- Modelled from the spec: the full `/mission` route — FastAPI validates the
raw body against `MissionRequest` first and answers 422 on failure without
running the handler; on success the handler runs `create_mission`, which
performs the outbound weather call. The boolean records whether that
outbound call was attempted. -/
def handle_mission (body : JsonVal) (o : FetchOutcome) (now : DateTimeUTC) :
    MissionResponse × Bool :=
  match validateMission body with
  | none => (.rejected 422, false)
  | some m => (.accepted 200 (create_mission m o now), true)

end MissionIngestion

namespace MissionIngestion

/-! ## Helper lemmas about the weather client -/

lemma classify_num (t w : ℚ) (d : Option JsonVal) :
    classifyCondition (some (.num t)) (some (.num w)) d =
      .ok (if t < 0 then "freezing" else if w > 40 then "windy"
           else if pyTruthyOpt d then "clear-day" else "clear-night") := by
  simp only [classifyCondition, pyNumVal]
  split_ifs <;> rfl

lemma get_weather_200 (j : JsonVal) (r : WeatherResult) (h : parseBody j = .ok r) :
    get_weather (.response 200 (some j)) = r := by
  unfold get_weather get_weather_impl
  have h2 : get_weather_try (.response 200 (some j)) = parseBody j := rfl
  rw [h2, h]

lemma parse_match (t w : ℚ) (dO : Option JsonVal) :
    (match classifyCondition (some (.num t)) (some (.num w)) dO with
     | Except.error e => (Except.error e : Except PyExn WeatherResult)
     | Except.ok c =>
        Except.ok { temperature := some (.num t), wind_speed := some (.num w), condition := c }) =
    Except.ok { temperature := some (.num t), wind_speed := some (.num w),
                condition := if t < 0 then "freezing" else if w > 40 then "windy"
                             else if pyTruthyOpt dO then "clear-day" else "clear-night" } := by
  rw [classify_num]

lemma parseBody_full (t w : ℚ) (d : JsonVal) :
    parseBody (mkCurrent [("temperature_2m", .num t), ("wind_speed_10m", .num w), ("is_day", d)]) =
    .ok { temperature := some (.num t), wind_speed := some (.num w),
          condition := if t < 0 then "freezing" else if w > 40 then "windy"
                       else if pyTruthy d then "clear-day" else "clear-night" } := by
  cases d with
  | null => exact parse_match t w none
  | bool b => exact parse_match t w (some (.bool b))
  | num q => exact parse_match t w (some (.num q))
  | str s => exact parse_match t w (some (.str s))
  | arr xs => exact parse_match t w (some (.arr xs))
  | obj fs => exact parse_match t w (some (.obj fs))

lemma parseBody_noday (t w : ℚ) :
    parseBody (mkCurrent [("temperature_2m", .num t), ("wind_speed_10m", .num w)]) =
    .ok { temperature := some (.num t), wind_speed := some (.num w),
          condition := if t < 0 then "freezing" else if w > 40 then "windy"
                       else "clear-night" } :=
  parse_match t w none

lemma parseBody_nowind (t : ℚ) (d : JsonVal) :
    parseBody (mkCurrent [("temperature_2m", .num t), ("is_day", d)]) =
    .ok { temperature := some (.num t), wind_speed := none, condition := "unknown" } := rfl

lemma parseBody_notemp (w : ℚ) (d : JsonVal) :
    parseBody (mkCurrent [("wind_speed_10m", .num w), ("is_day", d)]) =
    .ok { temperature := none, wind_speed := some (.num w), condition := "unknown" } := rfl

lemma classifyCondition_ok_inv {t w d : Option JsonVal} {c : String}
    (h : classifyCondition t w d = .ok c) :
    c ∈ condVocab ∧ (c ≠ "unknown" → t ≠ none ∧ w ≠ none) := by
  cases t with
  | none =>
    simp only [classifyCondition, Except.ok.injEq] at h
    subst h
    simp [condVocab]
  | some tv =>
    cases w with
    | none =>
      simp only [classifyCondition, Except.ok.injEq] at h
      subst h
      simp [condVocab]
    | some wv =>
      simp only [classifyCondition] at h
      cases htv : pyNumVal tv with
      | error e => simp only [htv] at h; exact Except.noConfusion h
      | ok tq =>
        simp only [htv] at h
        by_cases h1 : tq < 0
        · rw [if_pos h1] at h
          injection h with h
          subst h
          simp [condVocab]
        · rw [if_neg h1] at h
          cases hwv : pyNumVal wv with
          | error e => simp only [hwv] at h; exact Except.noConfusion h
          | ok wq =>
            simp only [hwv] at h
            by_cases h2 : wq > 40
            · rw [if_pos h2] at h
              injection h with h
              subst h
              simp [condVocab]
            · rw [if_neg h2] at h
              injection h with h
              subst h
              cases pyTruthyOpt d <;> simp [condVocab]

lemma parseBody_ok_inv {j : JsonVal} {r : WeatherResult} (h : parseBody j = .ok r) :
    r.condition ∈ condVocab ∧
    (r.condition ≠ "unknown" → r.temperature ≠ none ∧ r.wind_speed ≠ none) := by
  cases h0 : objGet j "current" (.obj []) with
  | error e => simp only [parseBody, h0] at h; exact Except.noConfusion h
  | ok current =>
    cases h1 : objGetOpt current "temperature_2m" with
    | error e => simp only [parseBody, h0, h1] at h; exact Except.noConfusion h
    | ok t =>
      cases h2 : objGetOpt current "wind_speed_10m" with
      | error e => simp only [parseBody, h0, h1, h2] at h; exact Except.noConfusion h
      | ok w =>
        cases h3 : objGetOpt current "is_day" with
        | error e => simp only [parseBody, h0, h1, h2, h3] at h; exact Except.noConfusion h
        | ok d =>
          cases h4 : classifyCondition t w d with
          | error e =>
            simp only [parseBody, h0, h1, h2, h3, h4] at h
            exact Except.noConfusion h
          | ok c =>
            simp only [parseBody, h0, h1, h2, h3, h4, Except.ok.injEq] at h
            subst h
            exact classifyCondition_ok_inv h4

lemma get_weather_of_try_error {o : FetchOutcome} {e : PyExn}
    (h : get_weather_try o = .error e) : get_weather o = fallbackWeather := by
  unfold get_weather get_weather_impl
  rw [h]
  by_cases he : isHttpxError e <;> simp [he]

lemma get_weather_inv (o : FetchOutcome) :
    (get_weather o).condition ∈ condVocab ∧
    ((get_weather o).condition ≠ "unknown" →
      (get_weather o).temperature ≠ none ∧ (get_weather o).wind_speed ≠ none) := by
  cases h : get_weather_try o with
  | error e =>
    rw [get_weather_of_try_error h]
    simp [fallbackWeather, condVocab]
  | ok w =>
    have hw : get_weather o = w := by
      unfold get_weather get_weather_impl
      rw [h]
    rw [hw]
    cases o with
    | timeout => simp [get_weather_try] at h
    | networkFault => simp [get_weather_try] at h
    | response status body =>
      simp only [get_weather_try] at h
      by_cases hs : statusSuccess status
      · rw [if_pos (by simp [hs])] at h
        cases body with
        | some j => exact parseBody_ok_inv h
        | none => exact Except.noConfusion h
      · rw [if_neg (by simp [hs])] at h
        exact Except.noConfusion h

end MissionIngestion

namespace MissionIngestion

/-! ## Claim theorems -/

/-- The property the spec states as an invariant: fields all meaningful or
all fallback, with no partial states. -/
def noPartialFallback (r : WeatherResult) : Prop :=
  (r.temperature = none ↔ r.wind_speed = none) ∧
  (r.condition = "unknown" → r.temperature = none ∧ r.wind_speed = none)

/-- A success body whose `current` section carries a temperature but no wind
speed. -/
def partialBody : JsonVal := mkCurrent [("temperature_2m", .num 10)]

/-- C1 (counterexample): a 200 response whose `current` section has
`temperature_2m = 10` and no `wind_speed_10m` makes `get_weather` return
`{temperature: 10, wind_speed: null, condition: "unknown"}` — exactly one of
the two numeric fields is null while condition is `"unknown"` with a
populated temperature, so the no-partial-fallback invariant fails. -/
theorem weather_partial_fallback_counterexample :
    get_weather (.response 200 (some partialBody)) =
      { temperature := some (.num 10), wind_speed := none, condition := "unknown" } ∧
    ¬ noPartialFallback (get_weather (.response 200 (some partialBody))) := by
  refine ⟨rfl, ?_⟩
  intro hnp
  have h1 : (get_weather (.response 200 (some partialBody))).wind_speed = none := rfl
  have h2 := hnp.1.mpr h1
  rw [show (get_weather (.response 200 (some partialBody))).temperature
        = some (.num 10) from rfl] at h2
  exact Option.noConfusion h2

/-- C1 (amended): whenever the returned condition is not `"unknown"`, both
`temperature` and `wind_speed` carry values; partial states can only occur
with condition `"unknown"`. -/
theorem weather_condition_meaningful_implies_fields_present (o : FetchOutcome)
    (h : (get_weather o).condition ≠ "unknown") :
    (get_weather o).temperature ≠ none ∧ (get_weather o).wind_speed ≠ none :=
  (get_weather_inv o).2 h

/-- A success body with all three current fields present and daytime set. -/
def dayBody : JsonVal :=
  mkCurrent [("temperature_2m", .num 10), ("wind_speed_10m", .num 5), ("is_day", .num 1)]

/-- C1 (witness): on a fully populated daytime response the condition is
`"clear-day"`, hence both numeric fields are non-null. -/
theorem weather_condition_meaningful_implies_fields_present_witness :
    (get_weather (.response 200 (some dayBody))).condition ≠ "unknown" ∧
    ((get_weather (.response 200 (some dayBody))).temperature ≠ none ∧
     (get_weather (.response 200 (some dayBody))).wind_speed ≠ none) := by
  have hc : (get_weather (.response 200 (some dayBody))).condition = "clear-day" := rfl
  have hne : (get_weather (.response 200 (some dayBody))).condition ≠ "unknown" := by
    rw [hc]; decide
  exact ⟨hne, weather_condition_meaningful_implies_fields_present _ hne⟩

/-- C2: the caller-facing run of `get_weather` is total and non-throwing —
for every outcome of the outbound call it produces an `ok` result (never an
`error`), that result is the returned `WeatherResult`, and every exception
raised inside the `try` block resolves to the fallback result. -/
theorem get_weather_total_and_nonthrowing (o : FetchOutcome) :
    (∃ r : WeatherResult, get_weather_run o = .ok r) ∧
    get_weather_run o = .ok (get_weather o) ∧
    (∀ e : PyExn, get_weather_try o = .error e → get_weather_run o = .ok fallbackWeather) := by
  have key : get_weather_run o = .ok (get_weather o) := by
    unfold get_weather_run get_weather get_weather_impl
    cases h : get_weather_try o with
    | ok w => rfl
    | error e => by_cases he : isHttpxError e <;> simp [he]
  refine ⟨⟨get_weather o, key⟩, key, ?_⟩
  intro e he
  rw [key, get_weather_of_try_error he]

/-- C2 (witness): a 404 response raises a status error inside the `try`
block, and the caller still receives an `ok` fallback result. -/
theorem get_weather_total_and_nonthrowing_witness :
    get_weather_try (.response 404 none) = .error .statusError ∧
    get_weather_run (.response 404 none) = .ok fallbackWeather :=
  ⟨rfl, (get_weather_total_and_nonthrowing (.response 404 none)).2.2 .statusError rfl⟩

/-- C3: on a 200 response the condition rules apply in priority order —
missing temperature or wind speed first (condition `"unknown"`), then
`temperature < 0` (`"freezing"`), then `wind_speed > 40` (`"windy"`), then
the day flag (`"clear-day"`/`"clear-night"`); in particular
(−5, 10, day) yields `"freezing"` and (10, 50, night) yields `"windy"`. -/
theorem weather_condition_priority_order :
    (∀ (t w : ℚ) (d : JsonVal),
      get_weather (.response 200 (some (mkCurrent
        [("temperature_2m", .num t), ("wind_speed_10m", .num w), ("is_day", d)]))) =
      { temperature := some (.num t), wind_speed := some (.num w),
        condition :=
          if t < 0 then "freezing"
          else if w > 40 then "windy"
          else if pyTruthy d then "clear-day" else "clear-night" }) ∧
    (∀ (t : ℚ) (d : JsonVal),
      get_weather (.response 200 (some (mkCurrent
        [("temperature_2m", .num t), ("is_day", d)]))) =
      { temperature := some (.num t), wind_speed := none, condition := "unknown" }) ∧
    (∀ (w : ℚ) (d : JsonVal),
      get_weather (.response 200 (some (mkCurrent
        [("wind_speed_10m", .num w), ("is_day", d)]))) =
      { temperature := none, wind_speed := some (.num w), condition := "unknown" }) ∧
    (get_weather (.response 200 (some (mkCurrent
      [("temperature_2m", .num (-5)), ("wind_speed_10m", .num 10),
       ("is_day", .bool true)])))).condition = "freezing" ∧
    (get_weather (.response 200 (some (mkCurrent
      [("temperature_2m", .num 10), ("wind_speed_10m", .num 50),
       ("is_day", .bool false)])))).condition = "windy" := by
  refine ⟨?_, ?_, ?_, rfl, rfl⟩
  · intro t w d
    exact get_weather_200 _ _ (parseBody_full t w d)
  · intro t d
    exact get_weather_200 _ _ (parseBody_nowind t d)
  · intro w d
    exact get_weather_200 _ _ (parseBody_notemp w d)

/-- C4: a timeout, any other network-level fault, and every non-2xx status
all produce exactly the fallback result
`{temperature: null, wind_speed: null, condition: "unknown"}`. -/
theorem weather_error_paths_yield_fallback :
    fallbackWeather =
      { temperature := none, wind_speed := none, condition := "unknown" } ∧
    get_weather .timeout = fallbackWeather ∧
    get_weather .networkFault = fallbackWeather ∧
    (∀ (status : Nat) (body : Option JsonVal),
      statusSuccess status = false → get_weather (.response status body) = fallbackWeather) := by
  refine ⟨rfl, rfl, rfl, ?_⟩
  intro status body hs
  apply get_weather_of_try_error (e := .statusError)
  simp [get_weather_try, hs]

/-- C4 (witness): a 404 status is not a success and yields the fallback. -/
theorem weather_error_paths_yield_fallback_witness :
    statusSuccess 404 = false ∧ get_weather (.response 404 none) = fallbackWeather :=
  ⟨rfl, weather_error_paths_yield_fallback.2.2.2 404 none rfl⟩

/-- C5: for every outcome of the outbound call, the condition of the
returned result lies in the fixed vocabulary
unknown / freezing / windy / clear-day / clear-night. -/
theorem weather_condition_in_vocabulary (o : FetchOutcome) :
    (get_weather o).condition ∈ condVocab :=
  (get_weather_inv o).1

end MissionIngestion

namespace MissionIngestion

/-- C6: once validation passes, `POST /mission` answers 200 with a record of
exactly `mission` (the payload as a map), `weather` (the weather client's
result), and `ingestion_timestamp` (the UTC ISO-8601 time of ingestion) —
for every outcome of the outbound weather call, degraded or not. -/
theorem mission_valid_request_returns_record (body : JsonVal) (m : MissionRequest)
    (o : FetchOutcome) (now : DateTimeUTC) (h : validateMission body = some m) :
    handle_mission body o now =
      (.accepted 200 (.obj
        [ ("mission", m.dict)
        , ("weather", (get_weather o).toJson)
        , ("ingestion_timestamp", .str now.isoformat) ]), true) := by
  unfold handle_mission
  rw [h]
  rfl

/-- A concrete valid mission body used as the C6 witness input. -/
def missionBodyW : JsonVal :=
  .obj [("latitude", .num 45), ("longitude", .num 9), ("name", .str "Alpha")]

/-- The validated form of `missionBodyW`. -/
def missionReqW : MissionRequest :=
  { latitude := 45, longitude := 9, extra := [("name", .str "Alpha")] }

/-- C6 (witness): the concrete body validates and, with the weather call
timing out, still yields a 200 record carrying the fallback weather. -/
theorem mission_valid_request_returns_record_witness :
    validateMission missionBodyW = some missionReqW ∧
    handle_mission missionBodyW .timeout ⟨2026, 1, 1, 0, 0, 0, 0⟩ =
      (.accepted 200 (.obj
        [ ("mission", missionReqW.dict)
        , ("weather", (get_weather .timeout).toJson)
        , ("ingestion_timestamp", .str (DateTimeUTC.isoformat ⟨2026, 1, 1, 0, 0, 0, 0⟩)) ]), true) :=
  ⟨rfl, mission_valid_request_returns_record missionBodyW missionReqW .timeout
    ⟨2026, 1, 1, 0, 0, 0, 0⟩ rfl⟩

/-- C7: a body that fails validation is answered 422 with no outbound
weather call; in particular any out-of-range coordinate pair, and the
concrete body with latitude 200, are rejected without a downstream call. -/
theorem mission_invalid_request_rejected_422 :
    (∀ (body : JsonVal) (o : FetchOutcome) (now : DateTimeUTC),
      validateMission body = none →
      handle_mission body o now = (.rejected 422, false)) ∧
    (∀ (lat lon : ℚ) (rest : List (String × JsonVal)) (o : FetchOutcome) (now : DateTimeUTC),
      (lat < -90 ∨ 90 < lat ∨ lon < -180 ∨ 180 < lon) →
      handle_mission (.obj (("latitude", .num lat) :: ("longitude", .num lon) :: rest)) o now =
        (.rejected 422, false)) ∧
    (∀ (o : FetchOutcome) (now : DateTimeUTC),
      handle_mission (.obj [("latitude", .num 200), ("longitude", .num 9)]) o now =
        (.rejected 422, false)) := by
  have general : ∀ (body : JsonVal) (o : FetchOutcome) (now : DateTimeUTC),
      validateMission body = none →
      handle_mission body o now = (.rejected 422, false) := by
    intro body o now h
    unfold handle_mission
    rw [h]
  refine ⟨general, ?_, ?_⟩
  · intro lat lon rest o now hout
    apply general
    have hneg : ¬ (-90 ≤ lat ∧ lat ≤ 90 ∧ -180 ≤ lon ∧ lon ≤ 180) := by
      rcases hout with h | h | h | h
      · exact fun hc => absurd hc.1 (not_le.mpr h)
      · exact fun hc => absurd hc.2.1 (not_le.mpr h)
      · exact fun hc => absurd hc.2.2.1 (not_le.mpr h)
      · exact fun hc => absurd hc.2.2.2 (not_le.mpr h)
    exact if_neg hneg
  · intro o now
    apply general
    rfl

/-- C7 (witness): a body with no fields at all fails validation and the
route answers 422 without calling the weather client. -/
theorem mission_invalid_request_rejected_422_witness :
    validateMission (.obj []) = none ∧
    handle_mission (.obj []) .timeout ⟨2026, 1, 1, 0, 0, 0, 1⟩ = (.rejected 422, false) :=
  ⟨rfl, mission_invalid_request_rejected_422.1 (.obj []) .timeout ⟨2026, 1, 1, 0, 0, 0, 1⟩ rfl⟩

/-- C8: the outbound GET built by `get_weather` targets the forecast URL and
carries exactly the five query parameters of the source, none of which is an
authentication credential. -/
theorem weather_request_query_parameters (latitude longitude : ℚ) :
    (get_weather_request latitude longitude).url = API_URL ∧
    (get_weather_request latitude longitude).params =
      [ ("latitude", .num latitude)
      , ("longitude", .num longitude)
      , ("current", .strList ["temperature_2m", "wind_speed_10m", "is_day"])
      , ("wind_speed_unit", .str "kmh")
      , ("timezone", .str "UTC") ] ∧
    (∀ p ∈ (get_weather_request latitude longitude).params,
      p.1 ∉ (["apikey", "api_key", "key", "token", "authorization"] : List String)) := by
  refine ⟨rfl, rfl, ?_⟩
  intro p hp
  simp only [get_weather_request, List.mem_cons, List.not_mem_nil, or_false] at hp
  rcases hp with rfl | rfl | rfl | rfl | rfl <;> simp

/-- C8 (witness): the latitude parameter of a concrete request is present
and is not an authentication credential. -/
theorem weather_request_query_parameters_witness :
    (("latitude", ParamVal.num 45) ∈ (get_weather_request 45 9).params) ∧
    ("latitude" ∉ (["apikey", "api_key", "key", "token", "authorization"] : List String)) := by
  have hm : ("latitude", ParamVal.num 45) ∈ (get_weather_request 45 9).params := by decide
  exact ⟨hm, (weather_request_query_parameters 45 9).2.2 _ hm⟩

/-- C9: for every call time, `GET /health` returns status 200 with body
`{status: "ok", timestamp: <that call time in ISO-8601>}` — the timestamp is
the isoformat of the very datetime observed during the call. -/
theorem health_check_ok_and_timestamp (now : DateTimeUTC) :
    (health_check now).1 = 200 ∧
    health_check now =
      (200, .obj [("status", .str "ok"), ("timestamp", .str now.isoformat)]) :=
  ⟨rfl, rfl⟩

/-- C10: on a 200 response with in-range temperature and wind but a missing,
null, or zero `is_day` flag, the condition is `"clear-night"`. -/
theorem weather_missing_is_day_clear_night (t w : ℚ) (h1 : 0 ≤ t) (h2 : w ≤ 40) :
    get_weather (.response 200 (some (mkCurrent
      [("temperature_2m", .num t), ("wind_speed_10m", .num w)]))) =
      { temperature := some (.num t), wind_speed := some (.num w),
        condition := "clear-night" } ∧
    get_weather (.response 200 (some (mkCurrent
      [("temperature_2m", .num t), ("wind_speed_10m", .num w), ("is_day", .null)]))) =
      { temperature := some (.num t), wind_speed := some (.num w),
        condition := "clear-night" } ∧
    get_weather (.response 200 (some (mkCurrent
      [("temperature_2m", .num t), ("wind_speed_10m", .num w), ("is_day", .num 0)]))) =
      { temperature := some (.num t), wind_speed := some (.num w),
        condition := "clear-night" } := by
  have ht : ¬ t < 0 := not_lt.mpr h1
  have hw : ¬ w > 40 := not_lt.mpr h2
  refine ⟨?_, ?_, ?_⟩
  · rw [get_weather_200 _ _ (parseBody_noday t w), if_neg ht, if_neg hw]
  · rw [get_weather_200 _ _ (parseBody_full t w .null), if_neg ht, if_neg hw]
    rfl
  · rw [get_weather_200 _ _ (parseBody_full t w (.num 0)), if_neg ht, if_neg hw]
    rfl

/-- C10 (witness): temperature 10 and wind 10 with no day flag give
`"clear-night"`. -/
theorem weather_missing_is_day_clear_night_witness :
    (0 : ℚ) ≤ 10 ∧ (10 : ℚ) ≤ 40 ∧
    get_weather (.response 200 (some (mkCurrent
      [("temperature_2m", .num 10), ("wind_speed_10m", .num 10)]))) =
      { temperature := some (.num 10), wind_speed := some (.num 10),
        condition := "clear-night" } :=
  ⟨by norm_num, by norm_num,
    (weather_missing_is_day_clear_night 10 10 (by norm_num) (by norm_num)).1⟩

end MissionIngestion
